import Mathlib

/-!
Shallow embedding of `src/app/app.js` (an Express OAuth redirect bridge).

The program has two routes:
* `GET /` builds the provider authorization URL and appends a `state`
  query parameter holding `JSON.stringify({redirectURL: 'https://' +
  HEROKU_APP_NAME + '.herokuapp.com'})`, then redirects.
* `GET /oauth2/callback` parses the `state` JSON, extracts
  `state.redirectURL`, and compares its hostname with the hostname of the
  reconstructed request URL.  On a match it exchanges the code, resolves a
  credential (environment variable first, per-instance file as fallback),
  writes it to a fixed path, runs two fixed `sfdx` commands, parses the
  second command's JSON stdout and redirects to `result.url`.  On a
  mismatch it rewrites the state's redirect URL to path `/oauth2/callback`,
  appends the original `state` and `code` values and redirects there.
  Every failure inside the local promise chain funnels into `handleError`,
  which sends status 403 with a fixed body.

JavaScript builtins that are black boxes to the program (`new URL`,
`JSON.parse`) are modelled as oracle functions supplied in a `Builtins`
structure; external effects (the jsforce authorize call, the filesystem
and the two subprocess invocations) are modelled by a `World` record of
their outcomes.  The handler returns the single outcome it produces (a
sent response, or an uncaught synchronous throw) together with the ordered
trace of external operations it invoked.
-/

/-- Errors a JavaScript evaluation step can throw in this program. -/
inductive JsErr where
  /-- SyntaxError thrown by `JSON.parse` on invalid input. -/
  | badJson
  /-- TypeError thrown by `new URL` on an unparseable string. -/
  | badURL
  /-- TypeError thrown by property access on `null` or `undefined`. -/
  | badAccess
  /-- an error value produced by an external operation (jsforce, fs, exec). -/
  | raised (msg : String)
deriving DecidableEq

/-- JavaScript values as far as this program inspects them: the results of
`JSON.parse` and the fields read off them. -/
inductive JsValue where
  | vundef
  | vnull
  | vbool (b : Bool)
  | vnum (n : Int)
  | vstr (s : String)
  | vobj (fields : List (String × JsValue))
  | varr (elems : List JsValue)

/-- Property access `v[k]`: throws TypeError on `null`/`undefined`,
returns the field (or `undefined`) on objects, and `undefined` on the
other primitives for the property names this program reads. -/
def JsValue.getField : JsValue → String → Except JsErr JsValue
  | .vundef, _ => .error .badAccess
  | .vnull, _ => .error .badAccess
  | .vobj fields, k => .ok ((fields.lookup k).getD .vundef)
  | _, _ => .ok .vundef

mutual

/-- JavaScript `String(v)` coercion, as applied by `res.redirect`, string
concatenation and `URLSearchParams.append`. -/
def JsValue.jsToString : JsValue → String
  | .vundef => "undefined"
  | .vnull => "null"
  | .vbool b => cond b "true" "false"
  | .vnum n => toString n
  | .vstr s => s
  | .vobj _ => "[object Object]"
  | .varr xs => jsArrToString xs

/-- Array-to-string coercion: elements joined by commas, with `null` and
`undefined` elements rendered empty. -/
def jsArrToString : List JsValue → String
  | [] => ""
  | x :: xs =>
    (match x with
     | .vundef => ""
     | .vnull => ""
     | v => v.jsToString)
    ++ (match xs with | [] => "" | _ => ",") ++ jsArrToString xs

end

/-- UTF-8 bytes of a Unicode code point, as used by percent-encoding. -/
def utf8Bytes (n : Nat) : List Nat :=
  if n < 128 then [n]
  else if n < 2048 then [192 + n / 64, 128 + n % 64]
  else if n < 65536 then [224 + n / 4096, 128 + (n / 64) % 64, 128 + n % 64]
  else [240 + n / 262144, 128 + (n / 4096) % 64, 128 + (n / 64) % 64, 128 + n % 64]

/-- Uppercase hexadecimal digit. -/
def hexDigitU (n : Nat) : Char :=
  if n < 10 then Char.ofNat (48 + n) else Char.ofNat (55 + n)

/-- Lowercase hexadecimal digit. -/
def hexDigitL (n : Nat) : Char :=
  if n < 10 then Char.ofNat (48 + n) else Char.ofNat (87 + n)

/-- Percent-encoding of one byte. -/
def percentByte (b : Nat) : String :=
  "%" ++ String.singleton (hexDigitU (b / 16)) ++ String.singleton (hexDigitU (b % 16))

/-- Characters kept verbatim by the query-string escaper
(approximating `encodeURIComponent` / `querystring.escape`). -/
def qsKeep (c : Char) : Bool :=
  c.isAlphanum || c = Char.ofNat 45 || c = Char.ofNat 46 || c = Char.ofNat 95 ||
  c = Char.ofNat 126 || c = Char.ofNat 33 || c = Char.ofNat 39 ||
  c = Char.ofNat 40 || c = Char.ofNat 41 || c = Char.ofNat 42

/-- Query-string percent-encoding of a string (UTF-8 byte based). -/
def uriEncode (s : String) : String :=
  String.join (s.toList.map (fun c =>
    if qsKeep c then String.singleton c
    else String.join ((utf8Bytes c.toNat).map percentByte)))

/-- Characters kept verbatim by `URLSearchParams` serialization
(application/x-www-form-urlencoded). -/
def formKeep (c : Char) : Bool :=
  c.isAlphanum || c = Char.ofNat 42 || c = Char.ofNat 45 ||
  c = Char.ofNat 46 || c = Char.ofNat 95

/-- Form-urlencoding of one character: space becomes plus, unreserved
characters stay, everything else is percent-encoded bytewise. -/
def formEncodeChar (c : Char) : String :=
  if c = Char.ofNat 32 then "+"
  else if formKeep c then String.singleton c
  else String.join ((utf8Bytes c.toNat).map percentByte)

/-- Form-urlencoding of a string, used when a `URL` is serialized. -/
def formEncode (s : String) : String :=
  String.join (s.toList.map formEncodeChar)

/-- Structural model of a WHATWG `URL` object: the components this program
reads or mutates.  `query` holds the decoded `searchParams` pairs in
order. -/
structure URLRec where
  scheme : String
  hostname : String
  port : String
  pathname : String
  query : List (String × String)
deriving DecidableEq

/-- Serialization of the query pairs, as `URLSearchParams` renders them. -/
def queryToString (q : List (String × String)) : String :=
  if q.isEmpty then ""
  else "?" ++ String.intercalate "&"
    (q.map (fun kv => formEncode kv.1 ++ "=" ++ formEncode kv.2))

/-- Serialization of a `URL` object (`url.toString()` / `url.href`). -/
def URLRec.toString (u : URLRec) : String :=
  u.scheme ++ "://" ++ u.hostname ++ (if u.port = "" then "" else ":" ++ u.port) ++
  u.pathname ++ queryToString u.query

/-- JSON string escaping as performed by `JSON.stringify` on a string
value. -/
def jsonEscapeChar (c : Char) : String :=
  if c = Char.ofNat 34 then "\\\""
  else if c = Char.ofNat 92 then "\\\\"
  else if c = Char.ofNat 8 then "\\b"
  else if c = Char.ofNat 9 then "\\t"
  else if c = Char.ofNat 10 then "\\n"
  else if c = Char.ofNat 12 then "\\f"
  else if c = Char.ofNat 13 then "\\r"
  else if c.toNat < 32 then
    "\\u00" ++ String.singleton (hexDigitL (c.toNat / 16)) ++
    String.singleton (hexDigitL (c.toNat % 16))
  else String.singleton c

/-- JSON quotation of a string value. -/
def jsonQuote (s : String) : String :=
  "\"" ++ String.join (s.toList.map jsonEscapeChar) ++ "\""

/-- The exact serialization `JSON.stringify({'redirectURL': origin})`
produced by the home-route handler: a one-field object whose value is the
quoted origin string. -/
def stringifyRedirectState (origin : String) : String :=
  "\x7b\"redirectURL\":" ++ jsonQuote origin ++ "\x7d"

/-- Environment variables the program reads.  A `none` models an unset
variable (JavaScript `undefined`). -/
structure Env where
  herokuAppName : Option String
  sfdxAuthUrl : Option String

/-- JavaScript string coercion of a possibly-unset environment variable,
as happens under `+` concatenation and template literals. -/
def envStr (v : Option String) : String := v.getD "undefined"

/-- JavaScript falsiness of a possibly-unset string, as tested by
`if (!sfdxAuthUrlFileData)`: unset or empty. -/
def jsFalsy (v : Option String) : Bool :=
  match v with
  | none => true
  | some s => s = ""

/-- Oracles for the JavaScript builtins the program calls: `new URL`
(`none` models a parse throw) and `JSON.parse` (`none` models a
SyntaxError). -/
structure Builtins where
  parseURL : String → Option URLRec
  jsonParse : String → Option JsValue

/-- The inbound request, as express presents it to the handler: protocol,
hostname, path and the two decoded query parameters (absent ones are
JavaScript `undefined`). -/
structure Req where
  protocol : String
  hostname : String
  path : String
  state? : Option String
  code? : Option String

/-- Captured stdout of a subprocess run by the promisified `exec`. -/
structure CmdOut where
  stdout : String
deriving DecidableEq

/-- Outcomes of the external operations the callback handler may invoke,
fixed ahead of the run: the jsforce authorize callback's error slot, the
fallback credential-file read, the credential-file open and write, and the
two `exec` invocations (`error` models a rejected promise, for `exec` a
non-zero exit). -/
structure World where
  authorizeErr : Option String
  raFileRead : Except String String
  openResult : Except String Unit
  writeResult : Except String Unit
  execStoreResult : Except String CmdOut
  execOpenResult : Except String CmdOut

/-- External operations the handler invokes, recorded in invocation
order. -/
inductive Event where
  | authorize (code : Option String)
  | readFile (path : String)
  | openFile (path : String) (mode : String)
  | write (path : String) (data : String)
  | exec (cmd : String)
deriving DecidableEq

/-- Responses the handler can send: `res.redirect` (status 302) or
`res.status(s).send(body)`. -/
inductive Response where
  | redirect (location : String)
  | error (status : Nat) (body : String)
deriving DecidableEq

/-- HTTP status of a response (`res.redirect` defaults to 302). -/
def Response.status : Response → Nat
  | .redirect _ => 302
  | .error s _ => s

/-- The single observable outcome of a request: a response was sent, or a
synchronous exception escaped the handler uncaught. -/
inductive Outcome where
  | sent (r : Response)
  | uncaught (e : JsErr)
deriving DecidableEq

/-- Fixed path the credential is written to: `vendor/sfdx/open-app-sfdxurl`. -/
def sfdxAuthUrlFilePath : String := "vendor/sfdx/open-app-sfdxurl"

/-- Command line of CLI Step A, built exactly as in the source by splicing
the fixed file path into a literal. -/
def storeCmd : String :=
  "sfdx force:auth:sfdxurl:store --setalias sfdxorg --sfdxurlfile \"" ++
  sfdxAuthUrlFilePath ++ "\" --noprompt --json"

/-- Command line of CLI Step B, a literal in the source. -/
def openCmd : String := "sfdx force:org:open --targetusername sfdxorg --urlonly --json"

/-- Body sent by `handleError`. -/
def genericErrorBody : String := "Unexpected internal error"

/-- The response `handleError` sends: status 403 with the fixed body. -/
def err403 : Response := .error 403 genericErrorBody

/-- Per-instance fallback credential file path,
`vendor/sfdx/ra-${process.env.HEROKU_APP_NAME}`. -/
def raFilePath (env : Env) : String :=
  "vendor/sfdx/ra-" ++ envStr env.herokuAppName

/-- Query object of the inbound request as express parsed it, used to
reconstruct the request URL via `url.format`. -/
def reqQuery (req : Req) : List (String × String) :=
  (match req.state? with | some s => [("state", s)] | none => []) ++
  (match req.code? with | some c => [("code", c)] | none => [])

/-- The string `url.format({protocol, hostname, pathname, query})`
produces for the inbound request, later fed to `new URL`. -/
def formatRequestURL (req : Req) : String :=
  req.protocol ++ "://" ++ req.hostname ++ req.path ++
  (if (reqQuery req).isEmpty then ""
   else "?" ++ String.intercalate "&"
     ((reqQuery req).map (fun kv => uriEncode kv.1 ++ "=" ++ uriEncode kv.2)))

/-- Tail of the local promise chain: CLI Step A, CLI Step B, parse of Step
B's stdout and the final redirect to `jsonResult.result.url`; every
rejection or throw is caught and becomes the fixed 403. -/
def execPhase (b : Builtins) (w : World) (evs : List Event) : Outcome × List Event :=
  match w.execStoreResult with
  | .error _ => (.sent err403, evs ++ [.exec storeCmd])
  | .ok _ =>
    match w.execOpenResult with
    | .error _ => (.sent err403, evs ++ [.exec storeCmd, .exec openCmd])
    | .ok out =>
      match b.jsonParse out.stdout with
      | none => (.sent err403, evs ++ [.exec storeCmd, .exec openCmd])
      | some jv =>
        match jv.getField "result" with
        | .error _ => (.sent err403, evs ++ [.exec storeCmd, .exec openCmd])
        | .ok rv =>
          match rv.getField "url" with
          | .error _ => (.sent err403, evs ++ [.exec storeCmd, .exec openCmd])
          | .ok uv =>
            (.sent (.redirect uv.jsToString), evs ++ [.exec storeCmd, .exec openCmd])

/-- Middle of the local promise chain: `fsp.open(path, 'w')` then
`fileHandle.writeFile(data)`; on success the chain proceeds to the CLI
phase, and any rejection becomes the fixed 403. -/
def writePhase (b : Builtins) (w : World) (data : String) (evs : List Event) :
    Outcome × List Event :=
  match w.openResult with
  | .error _ => (.sent err403, evs ++ [.openFile sfdxAuthUrlFilePath "w"])
  | .ok _ =>
    match w.writeResult with
    | .error _ =>
      (.sent err403,
        evs ++ [.openFile sfdxAuthUrlFilePath "w", .write sfdxAuthUrlFilePath data])
    | .ok _ =>
      execPhase b w
        (evs ++ [.openFile sfdxAuthUrlFilePath "w", .write sfdxAuthUrlFilePath data])

/-- The LOCAL branch of the callback handler: jsforce authorize with the
request's code, then credential resolution (environment variable unless
falsy, otherwise the per-instance file), then write and CLI phases. -/
def localFlow (env : Env) (b : Builtins) (req : Req) (w : World) :
    Outcome × List Event :=
  match w.authorizeErr with
  | some _ => (.sent err403, [.authorize req.code?])
  | none =>
    if jsFalsy env.sfdxAuthUrl then
      match w.raFileRead with
      | .error _ => (.sent err403, [.authorize req.code?, .readFile (raFilePath env)])
      | .ok fileData =>
        writePhase b w fileData [.authorize req.code?, .readFile (raFilePath env)]
    else
      writePhase b w (envStr env.sfdxAuthUrl) [.authorize req.code?]

/-- The FORWARD target: the state's redirect URL with its path set to
`/oauth2/callback` and the original `state` and `code` values appended to
its search parameters (an absent `code` coerces to the string
"undefined", as `URLSearchParams.append` stringifies its argument). -/
def forwardTarget (u : URLRec) (st : String) (cd : Option String) : URLRec :=
  { u with pathname := "/oauth2/callback",
           query := u.query ++ [("state", st), ("code", cd.getD "undefined")] }

/-- The `/oauth2/callback` handler.  In source order: reconstruct the
request URL with `new URL(url.format(...))`, `JSON.parse` the state (an
absent state coerces to the string "undefined", which is never valid
JSON), read `state.redirectURL`, parse it with `new URL`, then compare
hostnames to choose the LOCAL or FORWARD branch.  A throw in any of these
synchronous steps escapes the handler uncaught. -/
def callbackHandler (env : Env) (b : Builtins) (req : Req) (w : World) :
    Outcome × List Event :=
  match b.parseURL (formatRequestURL req) with
  | none => (.uncaught .badURL, [])
  | some requestURL =>
    match b.jsonParse ((req.state?).getD "undefined") with
    | none => (.uncaught .badJson, [])
    | some stateVal =>
      match stateVal.getField "redirectURL" with
      | .error e => (.uncaught e, [])
      | .ok rv =>
        match b.parseURL rv.jsToString with
        | none => (.uncaught .badURL, [])
        | some redirectURL =>
          if redirectURL.hostname = requestURL.hostname then
            localFlow env b req w
          else
            (.sent (.redirect (URLRec.toString
              (forwardTarget redirectURL ((req.state?).getD "undefined") req.code?))), [])

/-- The `GET /` handler: append the serialized one-field state object to
the provider authorization URL (supplied by the jsforce oracle as an
already-parsed `URL`) and redirect there. -/
def homeHandler (env : Env) (authURL : URLRec) : Response :=
  .redirect (URLRec.toString
    { authURL with
      query := authURL.query ++
        [("state", stringifyRedirectState
          ("https://" ++ envStr env.herokuAppName ++ ".herokuapp.com"))] })

/-! Concrete scenario used by witnesses: an instance at
`app.example.com`, a sibling at `other.example.com`, and concrete
instances of the builtin oracles covering exactly the strings these runs
evaluate. -/

/-- State JSON naming this instance. -/
def cStateStrL : String := "\x7b\"redirectURL\":\"https://app.example.com\"\x7d"

/-- State JSON naming the sibling instance. -/
def cStateStrF : String := "\x7b\"redirectURL\":\"https://other.example.com\"\x7d"

/-- Parsed value of `cStateStrL`. -/
def cSvL : JsValue := .vobj [("redirectURL", .vstr "https://app.example.com")]

/-- Parsed value of `cStateStrF`. -/
def cSvF : JsValue := .vobj [("redirectURL", .vstr "https://other.example.com")]

/-- Parsed `https://app.example.com`. -/
def cRuL : URLRec := ⟨"https", "app.example.com", "", "/", []⟩

/-- Parsed `https://other.example.com`. -/
def cRuF : URLRec := ⟨"https", "other.example.com", "", "/", []⟩

/-- Callback request whose state names this host. -/
def cReqLocal : Req := ⟨"https", "app.example.com", "/oauth2/callback", some cStateStrL, some "ABC"⟩

/-- Callback request whose state names the sibling host. -/
def cReqFwd : Req := ⟨"https", "app.example.com", "/oauth2/callback", some cStateStrF, some "ABC"⟩

/-- Callback request whose state is valid JSON lacking `redirectURL`. -/
def cReqBadState : Req := ⟨"https", "app.example.com", "/oauth2/callback", some "\x7b\x7d", some "ABC"⟩

/-- Callback request with no state parameter. -/
def cReqNoState : Req := ⟨"https", "app.example.com", "/oauth2/callback", none, some "ABC"⟩

/-- Callback request whose state is not valid JSON. -/
def cReqRawState : Req := ⟨"https", "app.example.com", "/oauth2/callback", some "oops", some "ABC"⟩

/-- Parsed request URL of `cReqLocal`. -/
def cQuL : URLRec :=
  ⟨"https", "app.example.com", "", "/oauth2/callback", [("state", cStateStrL), ("code", "ABC")]⟩

/-- Parsed request URL of `cReqFwd`. -/
def cQuF : URLRec :=
  ⟨"https", "app.example.com", "", "/oauth2/callback", [("state", cStateStrF), ("code", "ABC")]⟩

/-- Parsed request URL of `cReqBadState`. -/
def cQuB : URLRec :=
  ⟨"https", "app.example.com", "", "/oauth2/callback", [("state", "\x7b\x7d"), ("code", "ABC")]⟩

/-- Parsed request URL of `cReqNoState`. -/
def cQuN : URLRec :=
  ⟨"https", "app.example.com", "", "/oauth2/callback", [("code", "ABC")]⟩

/-- Parsed request URL of `cReqRawState`. -/
def cQuR : URLRec :=
  ⟨"https", "app.example.com", "", "/oauth2/callback", [("state", "oops"), ("code", "ABC")]⟩

/-- CLI Step B stdout carrying `result.url`. -/
def cGoodStdout : String :=
  "\x7b\"result\":\x7b\"url\":\"https://org.my.salesforce.com/secret\"\x7d\x7d"

/-- CLI Step B stdout whose `result` object lacks `url`. -/
def cNoUrlStdout : String := "\x7b\"result\":\x7b\x7d\x7d"

/-- Concrete builtin oracles: finite tables for `new URL` and
`JSON.parse` covering the strings the witness runs evaluate; everything
else throws, as `new URL("undefined")` and `JSON.parse("undefined")` do. -/
def cB : Builtins :=
  { parseURL := fun s =>
      if s = formatRequestURL cReqLocal then some cQuL
      else if s = formatRequestURL cReqFwd then some cQuF
      else if s = formatRequestURL cReqBadState then some cQuB
      else if s = formatRequestURL cReqNoState then some cQuN
      else if s = formatRequestURL cReqRawState then some cQuR
      else if s = "https://app.example.com" then some cRuL
      else if s = "https://other.example.com" then some cRuF
      else none,
    jsonParse := fun s =>
      if s = cStateStrL then some cSvL
      else if s = cStateStrF then some cSvF
      else if s = "\x7b\x7d" then some (.vobj [])
      else if s = cGoodStdout then
        some (.vobj [("result", .vobj [("url", .vstr "https://org.my.salesforce.com/secret")])])
      else if s = cNoUrlStdout then some (.vobj [("result", .vobj [])])
      else none }

/-- Environment with both credential sources available. -/
def cEnv : Env := ⟨some "app-example", some "force://cred"⟩

/-- World in which every external operation succeeds and CLI Step B
reports a session URL. -/
def cWorldOK : World :=
  ⟨none, .ok "file-cred", .ok (), .ok (), .ok ⟨"\x7b\"status\":0\x7d"⟩, .ok ⟨cGoodStdout⟩⟩

/-- World identical to `cWorldOK` except CLI Step B's JSON lacks
`result.url`. -/
def cWorldNoUrl : World :=
  ⟨none, .ok "file-cred", .ok (), .ok (), .ok ⟨"\x7b\"status\":0\x7d"⟩, .ok ⟨cNoUrlStdout⟩⟩

/-- World in which the provider code exchange fails. -/
def cWorldAuthFail : World :=
  ⟨some "invalid_grant", .ok "file-cred", .ok (), .ok (), .ok ⟨"\x7b\"status\":0\x7d"⟩,
   .ok ⟨cGoodStdout⟩⟩

/-- World in which CLI Step B exits non-zero. -/
def cWorldOpenFail : World :=
  ⟨none, .ok "file-cred", .ok (), .ok (), .ok ⟨"\x7b\"status\":0\x7d"⟩, .error "exit 1"⟩

example :
    callbackHandler cEnv cB cReqLocal cWorldOK =
      (.sent (.redirect "https://org.my.salesforce.com/secret"),
       [.authorize (some "ABC"), .openFile sfdxAuthUrlFilePath "w",
        .write sfdxAuthUrlFilePath "force://cred", .exec storeCmd, .exec openCmd]) := rfl

example :
    callbackHandler cEnv cB cReqFwd cWorldOK =
      (.sent (.redirect (URLRec.toString (forwardTarget cRuF cStateStrF (some "ABC")))), []) := rfl

example :
    callbackHandler cEnv cB cReqNoState cWorldOK = (.uncaught .badJson, []) := rfl

example :
    callbackHandler cEnv cB cReqBadState cWorldOK = (.uncaught .badURL, []) := rfl

example :
    callbackHandler cEnv cB cReqLocal cWorldNoUrl =
      (.sent (.redirect "undefined"),
       [.authorize (some "ABC"), .openFile sfdxAuthUrlFilePath "w",
        .write sfdxAuthUrlFilePath "force://cred", .exec storeCmd, .exec openCmd]) := rfl

example :
    URLRec.toString (forwardTarget cRuF cStateStrF (some "ABC")) =
      "https://other.example.com/oauth2/callback?state=%7B%22redirectURL%22%3A%22https%3A%2F%2Fother.example.com%22%7D&code=ABC" := rfl

/-! Helper lemmas about the shape of the callback handler's behavior. -/

/-- an event `a` is invoked strictly before an event `b` in a trace. -/
def occursBefore (a b : Event) (l : List Event) : Prop :=
  ∃ l1 l2 l3, l = l1 ++ a :: l2 ++ b :: l3

/-- The LOCAL branch always begins by invoking the provider code
exchange. -/
lemma localFlow_authorize_head (env : Env) (b : Builtins) (req : Req) (w : World) :
    ∃ tl, (localFlow env b req w).2 = Event.authorize req.code? :: tl := by
  unfold localFlow writePhase execPhase
  repeat' split
  all_goals exact ⟨_, rfl⟩

/-- Under valid state and a hostname match, the callback handler runs the
LOCAL branch. -/
lemma callback_local (env : Env) (b : Builtins) (req : Req) (w : World)
    (qu : URLRec) (hq : b.parseURL (formatRequestURL req) = some qu)
    (sv : JsValue) (hs : b.jsonParse ((req.state?).getD "undefined") = some sv)
    (rv : JsValue) (hf : sv.getField "redirectURL" = Except.ok rv)
    (ru : URLRec) (hu : b.parseURL rv.jsToString = some ru)
    (hloc : ru.hostname = qu.hostname) :
    callbackHandler env b req w = localFlow env b req w := by
  simp only [callbackHandler, hq, hs, hf, hu, hloc, if_pos]

/-- Under valid state and a hostname mismatch, the callback handler sends
the forwarding redirect and invokes nothing. -/
lemma callback_forward (env : Env) (b : Builtins) (req : Req) (w : World)
    (qu : URLRec) (hq : b.parseURL (formatRequestURL req) = some qu)
    (sv : JsValue) (hs : b.jsonParse ((req.state?).getD "undefined") = some sv)
    (rv : JsValue) (hf : sv.getField "redirectURL" = Except.ok rv)
    (ru : URLRec) (hu : b.parseURL rv.jsToString = some ru)
    (hne : ru.hostname ≠ qu.hostname) :
    callbackHandler env b req w =
      (.sent (.redirect (URLRec.toString
        (forwardTarget ru ((req.state?).getD "undefined") req.code?))), []) := by
  simp only [callbackHandler, hq, hs, hf, hu]
  rw [if_neg hne]

/-- Failure of some external step the LOCAL branch actually invokes: the
provider exchange, the fallback credential read (relevant only when the
environment credential is falsy), the credential-file open or write, or
either CLI invocation. -/
def LocalFailure (env : Env) (w : World) : Prop :=
  (∃ m, w.authorizeErr = some m) ∨
  (jsFalsy env.sfdxAuthUrl = true ∧ ∃ m, w.raFileRead = Except.error m) ∨
  (∃ m, w.openResult = Except.error m) ∨
  (∃ m, w.writeResult = Except.error m) ∨
  (∃ m, w.execStoreResult = Except.error m) ∨
  (∃ m, w.execOpenResult = Except.error m)

/-- Whenever some invoked external step fails, the LOCAL branch produces
the fixed 403 response. -/
lemma localFlow_failure_403 (env : Env) (b : Builtins) (req : Req) (w : World)
    (hfail : LocalFailure env w) :
    (localFlow env b req w).1 = .sent err403 := by
  unfold LocalFailure at hfail
  unfold localFlow writePhase execPhase
  rcases hfail with ⟨m, hm⟩ | ⟨hfal, m, hm⟩ | ⟨m, hm⟩ | ⟨m, hm⟩ | ⟨m, hm⟩ | ⟨m, hm⟩
  all_goals repeat' split
  all_goals first | rfl | simp_all

/-- The CLI phase appends either just Step A or Step A followed by Step B
to the trace it is given. -/
lemma execPhase_trace_shape (b : Builtins) (w : World) (evs : List Event) :
    (execPhase b w evs).2 = evs ++ [.exec storeCmd] ∨
    (execPhase b w evs).2 = evs ++ [.exec storeCmd, .exec openCmd] := by
  unfold execPhase
  repeat' split
  all_goals first | exact Or.inl rfl | exact Or.inr rfl

/-- If CLI Step A appears in a write-phase trace that did not already
contain it, then both the file open and the credential write succeeded,
and the trace extends the input trace with the open, the write and then
Step A. -/
lemma writePhase_store_mem (b : Builtins) (w : World) (d : String) (evs : List Event)
    (h : Event.exec storeCmd ∈ (writePhase b w d evs).2)
    (hnot : Event.exec storeCmd ∉ evs) :
    w.openResult = Except.ok () ∧ w.writeResult = Except.ok () ∧
    ∃ rest, (writePhase b w d evs).2 =
      evs ++ Event.openFile sfdxAuthUrlFilePath "w" ::
        Event.write sfdxAuthUrlFilePath d :: Event.exec storeCmd :: rest := by
  obtain ⟨a, ra, o, wr, st, op⟩ := w
  cases o with
  | error m => simp [writePhase, hnot] at h
  | ok u =>
    cases wr with
    | error m => simp [writePhase, hnot] at h
    | ok u2 =>
      refine ⟨rfl, rfl, ?_⟩
      rcases execPhase_trace_shape b ⟨a, ra, Except.ok u, Except.ok u2, st, op⟩
          (evs ++ [.openFile sfdxAuthUrlFilePath "w", .write sfdxAuthUrlFilePath d]) with
        h2 | h2
      · exact ⟨[], by simp [writePhase, h2]⟩
      · exact ⟨[.exec openCmd], by simp [writePhase, h2]⟩

/-- Ordering form of `writePhase_store_mem`: the open strictly precedes
the write, which strictly precedes CLI Step A. -/
lemma writePhase_order (b : Builtins) (w : World) (d : String) (evs : List Event)
    (h : Event.exec storeCmd ∈ (writePhase b w d evs).2)
    (hnot : Event.exec storeCmd ∉ evs) :
    w.openResult = Except.ok () ∧ w.writeResult = Except.ok () ∧
    occursBefore (Event.openFile sfdxAuthUrlFilePath "w") (Event.write sfdxAuthUrlFilePath d)
      ((writePhase b w d evs).2) ∧
    occursBefore (Event.write sfdxAuthUrlFilePath d) (Event.exec storeCmd)
      ((writePhase b w d evs).2) := by
  obtain ⟨ho, hw, rest, htr⟩ := writePhase_store_mem b w d evs h hnot
  exact ⟨ho, hw,
    ⟨evs, [], Event.exec storeCmd :: rest, by simp [htr]⟩,
    ⟨evs ++ [Event.openFile sfdxAuthUrlFilePath "w"], [], rest, by simp [htr]⟩⟩

/-- When the provider exchange, the needed credential source and the file
write all succeed, the LOCAL branch reduces to the CLI phase. -/
lemma localFlow_to_execPhase (env : Env) (b : Builtins) (req : Req) (w : World)
    (ha : w.authorizeErr = none)
    (hcred : jsFalsy env.sfdxAuthUrl = false ∨ ∃ s, w.raFileRead = Except.ok s)
    (ho : w.openResult = Except.ok ()) (hw : w.writeResult = Except.ok ()) :
    ∃ evs, localFlow env b req w = execPhase b w evs := by
  cases hfal : jsFalsy env.sfdxAuthUrl with
  | false =>
    refine ⟨[.authorize req.code?, .openFile sfdxAuthUrlFilePath "w",
             .write sfdxAuthUrlFilePath (envStr env.sfdxAuthUrl)], ?_⟩
    simp [localFlow, writePhase, ha, hfal, ho, hw]
  | true =>
    rcases hcred with hc | ⟨s, hs2⟩
    · rw [hc] at hfal; exact absurd hfal (by simp)
    · refine ⟨[.authorize req.code?, .readFile (raFilePath env),
               .openFile sfdxAuthUrlFilePath "w", .write sfdxAuthUrlFilePath s], ?_⟩
      simp [localFlow, writePhase, ha, hfal, hs2, ho, hw]

/-- Outcomes of the CLI phase by the result of CLI Step B, given Step A
succeeded: a rejected Step B, unparseable stdout, or a thrown access to
`result.url` all yield the fixed 403, while an `undefined` `result.url`
yields a redirect to the string "undefined". -/
lemma execPhase_cases (b : Builtins) (w : World) (evs : List Event)
    (hst : ∃ o1, w.execStoreResult = Except.ok o1) :
    ((∃ m, w.execOpenResult = Except.error m) → (execPhase b w evs).1 = .sent err403) ∧
    (∀ out, w.execOpenResult = Except.ok out → b.jsonParse out.stdout = none →
      (execPhase b w evs).1 = .sent err403) ∧
    (∀ out jv, w.execOpenResult = Except.ok out → b.jsonParse out.stdout = some jv →
      (∃ e, jv.getField "result" = Except.error e) →
      (execPhase b w evs).1 = .sent err403) ∧
    (∀ out jv r, w.execOpenResult = Except.ok out → b.jsonParse out.stdout = some jv →
      jv.getField "result" = Except.ok r → (∃ e, r.getField "url" = Except.error e) →
      (execPhase b w evs).1 = .sent err403) ∧
    (∀ out jv r, w.execOpenResult = Except.ok out → b.jsonParse out.stdout = some jv →
      jv.getField "result" = Except.ok r → r.getField "url" = Except.ok JsValue.vundef →
      (execPhase b w evs).1 = .sent (.redirect "undefined")) := by
  obtain ⟨o1, ho1⟩ := hst
  refine ⟨?_, ?_, ?_, ?_, ?_⟩
  · rintro ⟨m, hm⟩
    simp [execPhase, ho1, hm]
  · intro out hout hj
    simp [execPhase, ho1, hout, hj]
  · rintro out jv hout hj ⟨e, he⟩
    simp [execPhase, ho1, hout, hj, he]
  · rintro out jv r hout hj hr ⟨e, he⟩
    simp [execPhase, ho1, hout, hj, hr, he]
  · intro out jv r hout hj hr hu
    simp [execPhase, ho1, hout, hj, hr, hu, JsValue.jsToString]

/-! Claim theorems. -/

/-- C1: for every callback request carrying a valid state whose
redirectURL hostname equals the request's own hostname, the handler takes
the LOCAL branch and performs the code exchange; for every valid state
whose redirectURL hostname differs, it takes the FORWARD branch (a
redirect to the sibling instance) and performs no code exchange. -/
theorem callback_routing_local_iff_hostname_match
    (env : Env) (b : Builtins) (req : Req) (w : World)
    (qu : URLRec) (hq : b.parseURL (formatRequestURL req) = some qu)
    (sv : JsValue) (hs : b.jsonParse ((req.state?).getD "undefined") = some sv)
    (rv : JsValue) (hf : sv.getField "redirectURL" = Except.ok rv)
    (ru : URLRec) (hu : b.parseURL rv.jsToString = some ru) :
    (ru.hostname = qu.hostname →
      callbackHandler env b req w = localFlow env b req w ∧
      Event.authorize req.code? ∈ (callbackHandler env b req w).2) ∧
    (ru.hostname ≠ qu.hostname →
      callbackHandler env b req w =
        (.sent (.redirect (URLRec.toString
          (forwardTarget ru ((req.state?).getD "undefined") req.code?))), []) ∧
      Event.authorize req.code? ∉ (callbackHandler env b req w).2) := by
  constructor
  · intro h
    have hcb := callback_local env b req w qu hq sv hs rv hf ru hu h
    refine ⟨hcb, ?_⟩
    rw [hcb]
    obtain ⟨tl, htl⟩ := localFlow_authorize_head env b req w
    rw [htl]
    exact List.mem_cons_self _ _
  · intro h
    have hcb := callback_forward env b req w qu hq sv hs rv hf ru hu h
    refine ⟨hcb, ?_⟩
    rw [hcb]
    simp

/-- C1 witness: in the concrete scenario, the matching request runs the
LOCAL branch and invokes the code exchange; the mismatching request is
answered by the forwarding redirect without a code exchange. -/
theorem callback_routing_witness :
    (callbackHandler cEnv cB cReqLocal cWorldOK = localFlow cEnv cB cReqLocal cWorldOK ∧
     Event.authorize cReqLocal.code? ∈ (callbackHandler cEnv cB cReqLocal cWorldOK).2) ∧
    (callbackHandler cEnv cB cReqFwd cWorldOK =
       (.sent (.redirect (URLRec.toString
         (forwardTarget cRuF cStateStrF (some "ABC")))), []) ∧
     Event.authorize cReqFwd.code? ∉ (callbackHandler cEnv cB cReqFwd cWorldOK).2) := by
  constructor
  · exact (callback_routing_local_iff_hostname_match cEnv cB cReqLocal cWorldOK
      cQuL rfl cSvL rfl (.vstr "https://app.example.com") rfl cRuL rfl).1 rfl
  · exact (callback_routing_local_iff_hostname_match cEnv cB cReqFwd cWorldOK
      cQuF rfl cSvF rfl (.vstr "https://other.example.com") rfl cRuF rfl).2 (by decide)

/-- C2: every forwarded callback is answered by a redirect to the state's
redirect URL with its path rewritten to /oauth2/callback and the original
state and code query-parameter values appended unmodified. -/
theorem forward_rewrites_and_preserves_params
    (env : Env) (b : Builtins) (req : Req) (w : World)
    (qu : URLRec) (hq : b.parseURL (formatRequestURL req) = some qu)
    (sv : JsValue) (hs : b.jsonParse ((req.state?).getD "undefined") = some sv)
    (rv : JsValue) (hf : sv.getField "redirectURL" = Except.ok rv)
    (ru : URLRec) (hu : b.parseURL rv.jsToString = some ru)
    (hne : ru.hostname ≠ qu.hostname)
    (s : String) (hstate : req.state? = some s)
    (c : String) (hcode : req.code? = some c) :
    callbackHandler env b req w =
      (.sent (.redirect (URLRec.toString (forwardTarget ru s (some c)))), []) ∧
    (forwardTarget ru s (some c)).pathname = "/oauth2/callback" ∧
    (forwardTarget ru s (some c)).query = ru.query ++ [("state", s), ("code", c)] ∧
    (forwardTarget ru s (some c)).scheme = ru.scheme ∧
    (forwardTarget ru s (some c)).hostname = ru.hostname ∧
    (forwardTarget ru s (some c)).port = ru.port := by
  have hcb := callback_forward env b req w qu hq sv hs rv hf ru hu hne
  rw [hstate, hcode] at hcb
  exact ⟨hcb, rfl, by simp [forwardTarget], rfl, rfl, rfl⟩

/-- C2 witness: the concrete forwarded request is answered by the rewritten
target, whose path is /oauth2/callback and whose query carries the original
state and code values verbatim. -/
theorem forward_preserves_witness :
    callbackHandler cEnv cB cReqFwd cWorldOK =
      (.sent (.redirect (URLRec.toString (forwardTarget cRuF cStateStrF (some "ABC")))), []) ∧
    (forwardTarget cRuF cStateStrF (some "ABC")).pathname = "/oauth2/callback" ∧
    (forwardTarget cRuF cStateStrF (some "ABC")).query =
      cRuF.query ++ [("state", cStateStrF), ("code", "ABC")] := by
  have h := forward_rewrites_and_preserves_params cEnv cB cReqFwd cWorldOK
    cQuF rfl cSvF rfl (.vstr "https://other.example.com") rfl cRuF rfl (by decide)
    cStateStrF rfl "ABC" rfl
  exact ⟨h.1, h.2.1, h.2.2.1⟩

/-- C3: whenever the provider exchange, credential materialization or
either CLI invocation fails on a locally-completed callback, the handler
sends exactly the fixed 403 response, whose body is the constant generic
string no matter which error occurred. -/
theorem failures_yield_single_generic_403
    (env : Env) (b : Builtins) (req : Req) (w : World)
    (qu : URLRec) (hq : b.parseURL (formatRequestURL req) = some qu)
    (sv : JsValue) (hs : b.jsonParse ((req.state?).getD "undefined") = some sv)
    (rv : JsValue) (hf : sv.getField "redirectURL" = Except.ok rv)
    (ru : URLRec) (hu : b.parseURL rv.jsToString = some ru)
    (hloc : ru.hostname = qu.hostname)
    (hfail : LocalFailure env w) :
    (callbackHandler env b req w).1 = .sent (Response.error 403 genericErrorBody) := by
  rw [callback_local env b req w qu hq sv hs rv hf ru hu hloc]
  exact localFlow_failure_403 env b req w hfail

/-- C3 witness: a failing provider exchange in the concrete scenario is
answered by the fixed 403. -/
theorem failures_403_witness :
    (callbackHandler cEnv cB cReqLocal cWorldAuthFail).1 =
      .sent (Response.error 403 genericErrorBody) :=
  failures_yield_single_generic_403 cEnv cB cReqLocal cWorldAuthFail
    cQuL rfl cSvL rfl (.vstr "https://app.example.com") rfl cRuL rfl rfl
    (Or.inl ⟨"invalid_grant", rfl⟩)

/-- C4: on a local completion, credential materialization uses the
environment-sourced string whenever it is present and non-empty (the
per-instance file is then never read), and reads the per-instance
`vendor/sfdx/ra-` file exactly when the environment string is absent or
empty (the written data then being the file's contents). -/
theorem credential_env_preferred_over_file
    (env : Env) (b : Builtins) (req : Req) (w : World)
    (qu : URLRec) (hq : b.parseURL (formatRequestURL req) = some qu)
    (sv : JsValue) (hs : b.jsonParse ((req.state?).getD "undefined") = some sv)
    (rv : JsValue) (hf : sv.getField "redirectURL" = Except.ok rv)
    (ru : URLRec) (hu : b.parseURL rv.jsToString = some ru)
    (hloc : ru.hostname = qu.hostname)
    (ha : w.authorizeErr = none) :
    (∀ s, env.sfdxAuthUrl = some s → s ≠ "" →
      ((∀ p, Event.readFile p ∉ (callbackHandler env b req w).2) ∧
       (∀ p d, Event.write p d ∈ (callbackHandler env b req w).2 → d = s))) ∧
    (jsFalsy env.sfdxAuthUrl = true →
      (Event.readFile (raFilePath env) ∈ (callbackHandler env b req w).2 ∧
       ∀ p d, Event.write p d ∈ (callbackHandler env b req w).2 →
         w.raFileRead = Except.ok d)) := by
  rw [callback_local env b req w qu hq sv hs rv hf ru hu hloc]
  obtain ⟨a, ra, o, wr, st, op⟩ := w
  cases a with
  | some m => exact absurd ha (by simp)
  | none =>
    constructor
    · intro s hsome hne
      have hfal : jsFalsy env.sfdxAuthUrl = false := by
        simp [jsFalsy, hsome, hne]
      have henv : envStr env.sfdxAuthUrl = s := by simp [envStr, hsome]
      unfold localFlow writePhase execPhase
      rw [hfal, henv]
      constructor
      · intro p
        repeat' split
        all_goals first | rfl | simp_all
      · intro p d
        repeat' split
        all_goals intro hmem
        all_goals simp_all
    · intro hfal
      unfold localFlow writePhase execPhase
      rw [hfal]
      constructor
      · repeat' split
        all_goals first | rfl | simp_all
      · intro p d
        repeat' split
        all_goals intro hmem
        all_goals simp_all

/-- C5 (code defect per the spec): a callback whose state parameter is
missing, and one whose state is not valid JSON, both make the handler
throw an uncaught SyntaxError out of `JSON.parse`: no `MalformedStateError`
is produced, no response is sent by the handler, and nothing further runs. -/
theorem missing_state_throws_uncaught :
    callbackHandler cEnv cB cReqNoState cWorldOK = (.uncaught JsErr.badJson, []) ∧
    callbackHandler cEnv cB cReqRawState cWorldOK = (.uncaught JsErr.badJson, []) :=
  ⟨rfl, rfl⟩

/-- C6 counterexample: with every earlier step succeeding and CLI Step B
printing a JSON shape lacking `result.url` (namely a `result` object with
no `url` field), the handler does not send the generic 403 — it redirects
to the literal string "undefined". -/
theorem cli_open_missing_url_redirects_undefined_cex :
    (callbackHandler cEnv cB cReqLocal cWorldNoUrl).1 = .sent (.redirect "undefined") ∧
    (callbackHandler cEnv cB cReqLocal cWorldNoUrl).1 ≠
      .sent (Response.error 403 genericErrorBody) := by
  exact ⟨rfl, by decide⟩

/-- C6 (amended): on a local completion whose provider exchange,
credential resolution, file write and CLI Step A succeed, a CLI Step B
that exits non-zero, emits unparseable JSON, or emits JSON on which the
access to `result` or to `result.url` throws (top-level value undefined or
null, or `result` absent, undefined or null) yields the fixed 403; but
when Step B's JSON has a `result` lacking `url` (the access yielding
`undefined`), the handler instead redirects to the string "undefined". -/
theorem cli_open_error_cases
    (env : Env) (b : Builtins) (req : Req) (w : World)
    (qu : URLRec) (hq : b.parseURL (formatRequestURL req) = some qu)
    (sv : JsValue) (hs : b.jsonParse ((req.state?).getD "undefined") = some sv)
    (rv : JsValue) (hf : sv.getField "redirectURL" = Except.ok rv)
    (ru : URLRec) (hu : b.parseURL rv.jsToString = some ru)
    (hloc : ru.hostname = qu.hostname)
    (ha : w.authorizeErr = none)
    (hcred : jsFalsy env.sfdxAuthUrl = false ∨ ∃ s, w.raFileRead = Except.ok s)
    (ho : w.openResult = Except.ok ()) (hw : w.writeResult = Except.ok ())
    (hst : ∃ o1, w.execStoreResult = Except.ok o1) :
    ((∃ m, w.execOpenResult = Except.error m) →
      (callbackHandler env b req w).1 = .sent err403) ∧
    (∀ out, w.execOpenResult = Except.ok out → b.jsonParse out.stdout = none →
      (callbackHandler env b req w).1 = .sent err403) ∧
    (∀ out jv, w.execOpenResult = Except.ok out → b.jsonParse out.stdout = some jv →
      (∃ e, jv.getField "result" = Except.error e) →
      (callbackHandler env b req w).1 = .sent err403) ∧
    (∀ out jv r, w.execOpenResult = Except.ok out → b.jsonParse out.stdout = some jv →
      jv.getField "result" = Except.ok r → (∃ e, r.getField "url" = Except.error e) →
      (callbackHandler env b req w).1 = .sent err403) ∧
    (∀ out jv r, w.execOpenResult = Except.ok out → b.jsonParse out.stdout = some jv →
      jv.getField "result" = Except.ok r → r.getField "url" = Except.ok JsValue.vundef →
      (callbackHandler env b req w).1 = .sent (.redirect "undefined")) := by
  obtain ⟨evs, hlf⟩ := localFlow_to_execPhase env b req w ha hcred ho hw
  have hcb : callbackHandler env b req w = execPhase b w evs :=
    (callback_local env b req w qu hq sv hs rv hf ru hu hloc).trans hlf
  rw [hcb]
  exact execPhase_cases b w evs hst

/-- C6 witness: in the concrete scenario a CLI Step B that exits non-zero
is answered by the fixed 403. -/
theorem cli_open_error_witness :
    (callbackHandler cEnv cB cReqLocal cWorldOpenFail).1 = .sent err403 :=
  (cli_open_error_cases cEnv cB cReqLocal cWorldOpenFail cQuL rfl cSvL rfl
    (.vstr "https://app.example.com") rfl cRuL rfl rfl rfl (Or.inl rfl) rfl rfl
    ⟨⟨"\x7b\"status\":0\x7d"⟩, rfl⟩).1 ⟨"exit 1", rfl⟩

/-- C7: CLI Step A appears in a callback trace only when the credential
file open and write both succeeded, and then the truncating open (mode
"w") strictly precedes the credential write, which strictly precedes Step
A — the write has fully completed before Step A begins. -/
theorem write_completes_before_cli_store
    (env : Env) (b : Builtins) (req : Req) (w : World)
    (hmem : Event.exec storeCmd ∈ (callbackHandler env b req w).2) :
    w.openResult = Except.ok () ∧ w.writeResult = Except.ok () ∧
    ∃ d, occursBefore (Event.openFile sfdxAuthUrlFilePath "w")
           (Event.write sfdxAuthUrlFilePath d) ((callbackHandler env b req w).2) ∧
         occursBefore (Event.write sfdxAuthUrlFilePath d) (Event.exec storeCmd)
           ((callbackHandler env b req w).2) := by
  revert hmem
  unfold callbackHandler localFlow
  repeat' split
  all_goals intro hmem
  all_goals first
    | exact absurd hmem (by simp)
    | (obtain ⟨ho, hw, h1, h2⟩ := writePhase_order _ _ _ _ hmem (by simp)
       exact ⟨ho, hw, _, h1, h2⟩)

/-- C7 witness: the successful concrete run opened and wrote the
credential file before CLI Step A. -/
theorem write_before_cli_witness :
    cWorldOK.openResult = Except.ok () ∧ cWorldOK.writeResult = Except.ok () ∧
    ∃ d, occursBefore (Event.openFile sfdxAuthUrlFilePath "w")
           (Event.write sfdxAuthUrlFilePath d)
           ((callbackHandler cEnv cB cReqLocal cWorldOK).2) ∧
         occursBefore (Event.write sfdxAuthUrlFilePath d) (Event.exec storeCmd)
           ((callbackHandler cEnv cB cReqLocal cWorldOK).2) :=
  write_completes_before_cli_store cEnv cB cReqLocal cWorldOK (by decide)

/-- C8: every GET / request is answered by a 302 redirect to the provider
authorization URL with a state query parameter appended whose value is the
JSON serialization of the object with the single field redirectURL set to
this instance's own public origin; for an escaping-free origin that
serialization is the expected literal text. -/
theorem home_redirects_with_state_json (env : Env) (authURL : URLRec) :
    homeHandler env authURL =
      .redirect (URLRec.toString
        { authURL with query := authURL.query ++
            [("state", stringifyRedirectState
              ("https://" ++ envStr env.herokuAppName ++ ".herokuapp.com"))] }) ∧
    (homeHandler env authURL).status = 302 ∧
    stringifyRedirectState "https://app-example.herokuapp.com" =
      "\x7b\"redirectURL\":\"https://app-example.herokuapp.com\"\x7d" :=
  ⟨rfl, rfl, rfl⟩

/-- C9: when the state parses as JSON but its redirectURL is absent (or
null/undefined, so the access throws) or is not a parseable URL, the
callback handler throws synchronously before any routing decision: the
outcome is an uncaught exception with an empty trace, and no response —
in particular no 403 — is sent. -/
theorem malformed_redirect_state_throws_before_routing
    (env : Env) (b : Builtins) (req : Req) (w : World)
    (qu : URLRec) (hq : b.parseURL (formatRequestURL req) = some qu)
    (sv : JsValue) (hs : b.jsonParse ((req.state?).getD "undefined") = some sv)
    (hbad : (∃ e, sv.getField "redirectURL" = Except.error e) ∨
            (∃ rv, sv.getField "redirectURL" = Except.ok rv ∧
              b.parseURL rv.jsToString = none)) :
    (∃ e, callbackHandler env b req w = (.uncaught e, [])) ∧
    (∀ r, (callbackHandler env b req w).1 ≠ Outcome.sent r) := by
  have hmain : ∃ e, callbackHandler env b req w = (.uncaught e, []) := by
    rcases hbad with ⟨e, he⟩ | ⟨rv, hrv, hn⟩
    · refine ⟨e, ?_⟩
      simp only [callbackHandler, hq, hs, he]
    · refine ⟨.badURL, ?_⟩
      simp only [callbackHandler, hq, hs, hrv, hn]
  obtain ⟨e, he⟩ := hmain
  refine ⟨⟨e, he⟩, ?_⟩
  intro r hcon
  rw [he] at hcon
  exact Outcome.noConfusion hcon

/-- C9 witness: a state of valid JSON with no redirectURL field makes the
concrete handler throw before routing, sending nothing. -/
theorem malformed_redirect_witness :
    (∃ e, callbackHandler cEnv cB cReqBadState cWorldOK = (.uncaught e, [])) ∧
    (∀ r, (callbackHandler cEnv cB cReqBadState cWorldOK).1 ≠ Outcome.sent r) :=
  malformed_redirect_state_throws_before_routing cEnv cB cReqBadState cWorldOK
    cQuB rfl (.vobj []) rfl (Or.inr ⟨.vundef, rfl, rfl⟩)

/-- C10: every command line the callback handler passes to the subprocess
executor is one of the two fixed constants — no request-derived data flows
into them. -/
theorem exec_command_lines_fixed
    (env : Env) (b : Builtins) (req : Req) (w : World) (c : String)
    (h : Event.exec c ∈ (callbackHandler env b req w).2) :
    c = storeCmd ∨ c = openCmd := by
  revert h
  unfold callbackHandler localFlow writePhase execPhase
  repeat' split
  all_goals intro h
  all_goals simp at h
  all_goals tauto

/-- C10 witness: the successful concrete run executed CLI Step A, and its
command line is one of the two constants. -/
theorem exec_command_lines_witness :
    Event.exec storeCmd ∈ (callbackHandler cEnv cB cReqLocal cWorldOK).2 ∧
    (storeCmd = storeCmd ∨ storeCmd = openCmd) :=
  ⟨by decide, exec_command_lines_fixed cEnv cB cReqLocal cWorldOK storeCmd (by decide)⟩

/-- C4 witness: with the environment credential present and non-empty in
the concrete scenario, no file is read and the written data is the
environment value. -/
theorem credential_env_witness :
    (∀ p, Event.readFile p ∉ (callbackHandler cEnv cB cReqLocal cWorldOK).2) ∧
    (∀ p d, Event.write p d ∈ (callbackHandler cEnv cB cReqLocal cWorldOK).2 →
      d = "force://cred") :=
  (credential_env_preferred_over_file cEnv cB cReqLocal cWorldOK cQuL rfl cSvL rfl
    (.vstr "https://app.example.com") rfl cRuL rfl rfl rfl).1 "force://cred" rfl
    (by decide)
